import Mathlib

/-!
Shallow embedding of django-flatblocks' template tag module
(flatblocks/templatetags/flatblock_tags.py) and proofs about the claims on
its argument parser (BasicFlatBlockWrapper.prepare) and render step
(FlatBlockNode.render).

External collaborators (the FlatBlock model/datastore, the cache backend,
the template engine and the render context) are black boxes, bundled in an
`Env` of abstract functions; the module's own control flow is translated
line by line. The external calls render makes are recorded in a trace so
that the cache/datastore protocol claims can be stated.
-/

namespace Flatblocks

/-- A content record of the external datastore (the FlatBlock model): slug,
header and content fields, plus the raw_content / raw_header attributes that
FlatBlockNode.render attaches to the object when the evaluated flag is set
(lines 217-218); they are absent (none) on a record as fetched. -/
structure FlatBlock where
  slug : String
  header : String
  content : String
  raw_content : Option String := none
  raw_header : Option String := none
deriving Repr, DecidableEq

/-- The value held in a cache_time slot: a Python int (the initial 0 of
prepare line 78, or int(token) from line 135), the string token 'None' that
line 134 deliberately leaves unconverted, or the Python value None (never
produced by prepare, but FlatBlockNode.__init__ accepts it and render lines
188/205 test for it). -/
inductive CacheTime where
  | int : Int → CacheTime
  | noneStr : CacheTime
  | pyNone : CacheTime
deriving Repr, DecidableEq

/-- Python's `self.cache_time != 0` test (render lines 188 and 204): a
string and None both compare unequal to the int 0. -/
def CacheTime.neZero : CacheTime → Bool
  | .int n => n != 0
  | .noneStr => true
  | .pyNone => true

/-- Python's `self.cache_time is None or self.cache_time == 'None'` test
(render line 205). -/
def CacheTime.isNoneLike : CacheTime → Bool
  | .int _ => false
  | .noneStr => true
  | .pyNone => true

/-- The `int(self.cache_time)` of render line 212; only reached on int
values, because line 205 routes None and 'None' to the other branch, and
int(n) is the identity on an int. -/
def CacheTime.toInt : CacheTime → Int
  | .int n => n
  | .noneStr => 0
  | .pyNone => 0

/-- Value of a list of decimal digit characters. -/
def digitsVal (ds : List Char) : Nat :=
  ds.foldl (fun n c => 10 * n + (c.toNat - 48)) 0

/-- Python's digitpart grammar for int(): one or more decimal digits with
single underscores allowed between digits (PEP 515). -/
def pyDigitPart (ds : List Char) : Bool :=
  !ds.isEmpty
  && ds.all (fun c => c.isDigit || c == '_')
  && (match ds.head? with | some c => c.isDigit | none => false)
  && (match ds.getLast? with | some c => c.isDigit | none => false)
  && (ds.zip ds.tail).all (fun p => !(p.1 == '_' && p.2 == '_'))

/-- Python's int() applied to a tag token (prepare line 135): optional sign
followed by a digitpart. A token produced by token.split_contents() carries
no whitespace, so the surrounding-whitespace allowance of int() is moot.
none models the ValueError int() raises on any other string. -/
def pyInt (s : String) : Option Int :=
  match s.data with
  | '+' :: rest => if pyDigitPart rest then some (digitsVal (rest.filter (fun c => c != '_'))) else none
  | '-' :: rest => if pyDigitPart rest then some (-(digitsVal (rest.filter (fun c => c != '_')) : Int)) else none
  | ds => if pyDigitPart ds then some (digitsVal (ds.filter (fun c => c != '_'))) else none

/-- The quote test of prepare line 123 (and line 129 for the template name):
the token's first and last characters are the same character and that
character is a double or single quote. Only applied to nonempty tokens (on
the empty string Python's s[0] raises IndexError first). -/
def isQuoted (s : String) : Bool :=
  s.front == s.back && (s.front == '"' || s.front == '\'')

/-- The Python exceptions prepare can raise: IndexError from indexing a
missing or empty token, TemplateSyntaxError from the two raise statements
(lines 96 and 119), ValueError from int() on a bad timeout token. -/
inductive PyError where
  | indexError
  | templateSyntax
  | valueError
deriving Repr, DecidableEq

/-- The state BasicFlatBlockWrapper.prepare leaves on the wrapper. -/
structure ParsedTag where
  slug : String
  is_variable : Bool
  cache_time : CacheTime
  tpl_name : Option String
  tpl_is_variable : Bool
  evaluated : Bool
deriving Repr, DecidableEq

/-- Lines 82-121 of prepare: dispatch on the number of arguments after the
slug. Returns (the raw token assigned to cache_time if any, the evaluated
flag, the raw template-name token if any). -/
def parseArgs (args : List String) : Except PyError (Option String × Bool × Option String) :=
  match args with
  | [] => .ok (none, false, none)
  | [a0] =>
      if a0 = "evaluated" then .ok (none, true, none)
      else .ok (some a0, false, none)
  | [a0, a1] =>
      if a0 ≠ "using" then
        if a1 ≠ "evaluated" then .error .templateSyntax
        else .ok (some a0, true, none)
      else .ok (none, false, some a1)
  | [a0, _a1, a2] =>
      if a0 = "evaluated" then .ok (none, true, some a2)
      else .ok (some a0, false, some a2)
  | [a0, _a1, _a2, a3] => .ok (some a0, true, some a3)
  | _ => .error .templateSyntax

/-- Lines 127-133 of prepare: quote handling of the using-template token;
indexing an empty token raises IndexError. -/
def cleanTpl : Option String → Except PyError (Option String × Bool)
  | none => .ok (none, false)
  | some t =>
      if t.isEmpty then .error .indexError
      else if isQuoted t then .ok (some ((t.drop 1).dropRight 1), false)
      else .ok (some t, true)

/-- Lines 134-135 of prepare: the int() conversion of the cache_time slot,
skipped when the slot holds None or the string 'None'. A slot never assigned
is the int 0 and int(0) = 0. -/
def convertCacheTime : Option String → Except PyError CacheTime
  | none => .ok (CacheTime.int 0)
  | some t =>
      if t = "None" then .ok CacheTime.noneStr
      else match pyInt t with
        | some n => .ok (CacheTime.int n)
        | none => .error .valueError

/-- BasicFlatBlockWrapper.prepare (lines 61-135) over the token list
produced by token.split_contents(): tokens[0] is the tag name, tokens[1]
the slug token. The stages run in the source's order: arity dispatch,
slug quote check, template-name cleanup, int() conversion. -/
def prepare (tokens : List String) : Except PyError ParsedTag :=
  match tokens with
  | [] => .error .indexError
  | [_] => .error .indexError
  | _tag :: slugTok :: args =>
    match parseArgs args with
    | .error e => .error e
    | .ok (ctRaw, evaluated, tplRaw) =>
      if slugTok.isEmpty then .error .indexError
      else
        match cleanTpl tplRaw with
        | .error e => .error e
        | .ok (tpl_name, tpl_is_variable) =>
          match convertCacheTime ctRaw with
          | .error e => .error e
          | .ok ct =>
              .ok { slug := if isQuoted slugTok then (slugTok.drop 1).dropRight 1
                            else slugTok,
                    is_variable := !isQuoted slugTok, cache_time := ct,
                    tpl_name := tpl_name, tpl_is_variable := tpl_is_variable,
                    evaluated := evaluated }

/-- The template_name slot of a FlatBlockNode: a literal name, or a
template.Variable to resolve against the render context (lines 162-165). -/
inductive TplName where
  | lit : String → TplName
  | var : String → TplName
deriving Repr, DecidableEq

/-- A configured render node (FlatBlockNode's attributes after __init__). -/
structure FlatBlockNode where
  slug : String
  is_variable : Bool
  cache_time : CacheTime
  with_template : Bool
  template_name : TplName
  evaluated : Bool
deriving Repr, DecidableEq

/-- FlatBlockNode.__init__ (lines 157-170): a missing template_name
defaults to the literal 'flatblocks/flatblock.html'; otherwise
tpl_is_variable decides between a template.Variable and a literal name. -/
def FlatBlockNode.make (slug : String) (is_variable : Bool) (cache_time : CacheTime)
    (with_template : Bool) (template_name : Option String) (tpl_is_variable : Bool)
    (evaluated : Bool) : FlatBlockNode :=
  { slug := slug, is_variable := is_variable, cache_time := cache_time,
    with_template := with_template,
    template_name :=
      match template_name with
      | none => TplName.lit "flatblocks/flatblock.html"
      | some t => if tpl_is_variable then TplName.var t else TplName.lit t,
    evaluated := evaluated }

/-- BasicFlatBlockWrapper.__call__ (lines 137-142): prepare, then build the
node with with_template left at its default True. -/
def basicWrapperCall (tokens : List String) : Except PyError FlatBlockNode :=
  match prepare tokens with
  | .error e => .error e
  | .ok p => .ok (FlatBlockNode.make p.slug p.is_variable p.cache_time true
      p.tpl_name p.tpl_is_variable p.evaluated)

/-- PlainFlatBlockWrapper.__call__ (lines 146-149): prepare, then build the
node with with_template = False; the parsed template name is not passed on,
so template_name stays at its None default. -/
def plainWrapperCall (tokens : List String) : Except PyError FlatBlockNode :=
  match prepare tokens with
  | .error e => .error e
  | .ok p => .ok (FlatBlockNode.make p.slug p.is_variable p.cache_time false
      none false p.evaluated)

/-- The external collaborators render talks to, as abstract total functions:
settings.CACHE_PREFIX and settings.AUTOCREATE_STATIC_BLOCKS, the cache
backend's get, the FlatBlock manager's get keyed by slug, the resolution of
a template.Variable in the current context, the template engine applied to
a content string in the current context (FlatBlockNode._evaluate, line 232),
and the rendering of a named output template over the current context
extended with the record bound to 'flatblock' (lines 223-225). -/
structure Env where
  cachePref : String
  autocreate : Bool
  cache : String → Option FlatBlock
  db : String → Option FlatBlock
  resolveVar : String → String
  evalTpl : String → String
  renderTpl : String → FlatBlock → String

/-- Lines 173-176 of render: the slug used for the lookup — the variable's
value resolved from the context, or the literal slug. -/
def FlatBlockNode.realSlug (node : FlatBlockNode) (env : Env) : String :=
  if node.is_variable then env.resolveVar node.slug else node.slug

/-- Line 189 of render: the cache key. -/
def FlatBlockNode.cacheKey (node : FlatBlockNode) (env : Env) : String :=
  env.cachePref ++ node.realSlug env

/-- Lines 177-180 of render: the output template name actually used. -/
def FlatBlockNode.realTemplate (node : FlatBlockNode) (env : Env) : String :=
  match node.template_name with
  | TplName.var v => env.resolveVar v
  | TplName.lit t => t

/-- Lines 204-214 of render: the cache.set call made after a datastore
fetch — none when cache_time is 0, otherwise key, record, and the timeout
argument (none models calling cache.set without a timeout argument, i.e.
the backend's default timeout). -/
def cacheSetCall (ct : CacheTime) (key : String) (fb : FlatBlock) :
    Option (String × FlatBlock × Option Int) :=
  if ct.neZero then
    if ct.isNoneLike then some (key, fb, none)
    else some (key, fb, some ct.toInt)
  else none

/-- What the fetch part of one render call (lines 186-214) did: the record
it obtained (none models FlatBlock.DoesNotExist raised by objects.get), and
the external calls it made. -/
structure FetchResult where
  block : Option FlatBlock
  cacheGet : Option String
  dbGet : Option String
  dbGetOrCreate : Option String
  created : Option FlatBlock
  cacheSet : Option (String × FlatBlock × Option Int)
deriving Repr, DecidableEq

/-- Lines 191-214 of render: the datastore branch, entered with flatblock
still None. cg records the cache.get already made, if any. On the
is_variable-or-no-autocreate path a plain objects.get is issued (line 198)
and a missing record means DoesNotExist (block := none); otherwise
get_or_create (lines 200-203) returns the stored record or creates one with
content defaulted to the slug (the header field takes the model's field
default, modelled as the empty string). -/
def FlatBlockNode.fetchDb (node : FlatBlockNode) (env : Env) (cg : Option String) :
    FetchResult :=
  if node.is_variable || !env.autocreate then
    match env.db (node.realSlug env) with
    | none =>
        { block := none, cacheGet := cg, dbGet := some (node.realSlug env),
          dbGetOrCreate := none, created := none, cacheSet := none }
    | some fb =>
        { block := some fb, cacheGet := cg, dbGet := some (node.realSlug env),
          dbGetOrCreate := none, created := none,
          cacheSet := cacheSetCall node.cache_time (node.cacheKey env) fb }
  else
    match env.db (node.realSlug env) with
    | some fb =>
        { block := some fb, cacheGet := cg, dbGet := none,
          dbGetOrCreate := some (node.realSlug env), created := none,
          cacheSet := cacheSetCall node.cache_time (node.cacheKey env) fb }
    | none =>
        { block := some { slug := node.realSlug env, header := "",
                          content := node.realSlug env },
          cacheGet := cg, dbGet := none, dbGetOrCreate := some (node.realSlug env),
          created := some { slug := node.realSlug env, header := "",
                            content := node.realSlug env },
          cacheSet := cacheSetCall node.cache_time (node.cacheKey env)
            { slug := node.realSlug env, header := "", content := node.realSlug env } }

/-- Lines 186-214 of render: flatblock starts as None; when cache_time is
not 0 the cache is read first, and a hit short-circuits the datastore. -/
def FlatBlockNode.fetch (node : FlatBlockNode) (env : Env) : FetchResult :=
  if node.cache_time.neZero then
    match env.cache (node.cacheKey env) with
    | some fb =>
        { block := some fb, cacheGet := some (node.cacheKey env), dbGet := none,
          dbGetOrCreate := none, created := none, cacheSet := none }
    | none => node.fetchDb env (some (node.cacheKey env))
  else node.fetchDb env none

/-- Lines 216-220 of render together with _evaluate (line 232): the
evaluated-flag transformation of the fetched record — the pre-evaluation
content and header are kept on raw_content and raw_header, then content and
header are replaced by their rendering through the template engine. -/
def evaluateBlock (ev : String → String) (fb : FlatBlock) : FlatBlock :=
  { fb with raw_content := some fb.content, raw_header := some fb.header,
            content := ev fb.content, header := ev fb.header }

/-- What one call of FlatBlockNode.render did: the returned string, the
record as it stood after the (possible) evaluated step — the object bound
to 'flatblock' in the output template's context, none when DoesNotExist was
caught — and the trace of external calls. -/
structure RenderResult where
  output : String
  blockOut : Option FlatBlock
  cacheGet : Option String
  dbGet : Option String
  dbGetOrCreate : Option String
  created : Option FlatBlock
  cacheSet : Option (String × FlatBlock × Option Int)
deriving Repr, DecidableEq

/-- FlatBlockNode.render (lines 172-229): fetch the record (cache, then
datastore), apply the evaluated step when the flag is set, and either render
the output template over the context extended with the record or return the
record's content string; FlatBlock.DoesNotExist is caught and yields the
empty string (line 229). -/
def FlatBlockNode.render (node : FlatBlockNode) (env : Env) : RenderResult :=
  let f := node.fetch env
  let blockOut := f.block.map
    (fun fb => if node.evaluated then evaluateBlock env.evalTpl fb else fb)
  { output :=
      match blockOut with
      | none => ""
      | some fb =>
          if node.with_template then env.renderTpl (node.realTemplate env) fb
          else fb.content,
    blockOut := blockOut,
    cacheGet := f.cacheGet, dbGet := f.dbGet, dbGetOrCreate := f.dbGetOrCreate,
    created := f.created, cacheSet := f.cacheSet }

/-- A sample environment for concrete evaluations: empty cache, empty
datastore, autocreate off. -/
def envEmpty : Env :=
  { cachePref := "flatblocks_", autocreate := false,
    cache := fun _ => none, db := fun _ => none,
    resolveVar := fun v => v, evalTpl := fun s => s,
    renderTpl := fun _ fb => fb.content }

/-! Field characterizations of render and fetch, used by the claim proofs. -/

@[simp] theorem render_cacheGet (node : FlatBlockNode) (env : Env) :
    (node.render env).cacheGet = (node.fetch env).cacheGet := rfl

@[simp] theorem render_dbGet (node : FlatBlockNode) (env : Env) :
    (node.render env).dbGet = (node.fetch env).dbGet := rfl

@[simp] theorem render_dbGetOrCreate (node : FlatBlockNode) (env : Env) :
    (node.render env).dbGetOrCreate = (node.fetch env).dbGetOrCreate := rfl

@[simp] theorem render_created (node : FlatBlockNode) (env : Env) :
    (node.render env).created = (node.fetch env).created := rfl

@[simp] theorem render_cacheSet (node : FlatBlockNode) (env : Env) :
    (node.render env).cacheSet = (node.fetch env).cacheSet := rfl

@[simp] theorem render_blockOut (node : FlatBlockNode) (env : Env) :
    (node.render env).blockOut = (node.fetch env).block.map
      (fun fb => if node.evaluated then evaluateBlock env.evalTpl fb else fb) := rfl

theorem render_output (node : FlatBlockNode) (env : Env) :
    (node.render env).output =
      match (node.render env).blockOut with
      | none => ""
      | some fb =>
          if node.with_template then env.renderTpl (node.realTemplate env) fb
          else fb.content := rfl

@[simp] theorem fetchDb_cacheGet (node : FlatBlockNode) (env : Env) (cg : Option String) :
    (node.fetchDb env cg).cacheGet = cg := by
  unfold FlatBlockNode.fetchDb
  split <;> split <;> rfl

@[simp] theorem fetchDb_dbGet (node : FlatBlockNode) (env : Env) (cg : Option String) :
    (node.fetchDb env cg).dbGet =
      if (node.is_variable || !env.autocreate) then some (node.realSlug env) else none := by
  unfold FlatBlockNode.fetchDb
  split <;> split <;> simp_all

@[simp] theorem fetchDb_dbGetOrCreate (node : FlatBlockNode) (env : Env) (cg : Option String) :
    (node.fetchDb env cg).dbGetOrCreate =
      if (node.is_variable || !env.autocreate) then none else some (node.realSlug env) := by
  unfold FlatBlockNode.fetchDb
  split <;> split <;> simp_all

theorem fetchDb_block (node : FlatBlockNode) (env : Env) (cg : Option String) :
    (node.fetchDb env cg).block =
      if (node.is_variable || !env.autocreate) then env.db (node.realSlug env)
      else some ((env.db (node.realSlug env)).getD
        { slug := node.realSlug env, header := "", content := node.realSlug env }) := by
  unfold FlatBlockNode.fetchDb
  split <;> (rename_i h) <;> (cases hdb : env.db (node.realSlug env) <;> simp_all)

theorem fetchDb_created (node : FlatBlockNode) (env : Env) (cg : Option String) :
    (node.fetchDb env cg).created =
      if (node.is_variable || !env.autocreate) then none
      else match env.db (node.realSlug env) with
        | some _ => none
        | none => some { slug := node.realSlug env, header := "", content := node.realSlug env } := by
  unfold FlatBlockNode.fetchDb
  split <;> (cases hdb : env.db (node.realSlug env) <;> simp_all)

theorem fetchDb_cacheSet (node : FlatBlockNode) (env : Env) (cg : Option String) :
    (node.fetchDb env cg).cacheSet =
      (node.fetchDb env cg).block.bind
        (fun fb => cacheSetCall node.cache_time (node.cacheKey env) fb) := by
  unfold FlatBlockNode.fetchDb
  split <;> (cases hdb : env.db (node.realSlug env) <;> simp_all)

theorem fetch_eq_hit (node : FlatBlockNode) (env : Env) (fb : FlatBlock)
    (hnz : node.cache_time.neZero = true)
    (hc : env.cache (node.cacheKey env) = some fb) :
    node.fetch env =
      { block := some fb, cacheGet := some (node.cacheKey env), dbGet := none,
        dbGetOrCreate := none, created := none, cacheSet := none } := by
  unfold FlatBlockNode.fetch
  simp [hnz, hc]

theorem fetch_eq_miss (node : FlatBlockNode) (env : Env)
    (hnz : node.cache_time.neZero = true)
    (hc : env.cache (node.cacheKey env) = none) :
    node.fetch env = node.fetchDb env (some (node.cacheKey env)) := by
  unfold FlatBlockNode.fetch
  simp [hnz, hc]

theorem fetch_eq_zero (node : FlatBlockNode) (env : Env)
    (hnz : node.cache_time.neZero = false) :
    node.fetch env = node.fetchDb env none := by
  unfold FlatBlockNode.fetch
  simp [hnz]

/-! Characterizations of prepare, used by the claim proofs. -/

theorem cleanTpl_ne_templateSyntax (t : Option String) :
    cleanTpl t ≠ Except.error PyError.templateSyntax := by
  cases t with
  | none => simp [cleanTpl]
  | some s =>
      simp only [cleanTpl]
      split_ifs <;> simp

theorem convertCacheTime_ne_templateSyntax (c : Option String) :
    convertCacheTime c ≠ Except.error PyError.templateSyntax := by
  cases c with
  | none => simp [convertCacheTime]
  | some t =>
      simp only [convertCacheTime]
      split_ifs with h
      · simp
      · cases hp : pyInt t <;> simp

theorem prepare_ok_fields {tag s : String} {args : List String} {r : ParsedTag}
    (h : prepare (tag :: s :: args) = Except.ok r) :
    s.isEmpty = false
    ∧ r.slug = (if isQuoted s then (s.drop 1).dropRight 1 else s)
    ∧ r.is_variable = (!isQuoted s)
    ∧ ∃ ct ev tpl tn tv,
        parseArgs args = Except.ok (ct, ev, tpl)
        ∧ cleanTpl tpl = Except.ok (tn, tv)
        ∧ convertCacheTime ct = Except.ok r.cache_time
        ∧ r.evaluated = ev ∧ r.tpl_name = tn ∧ r.tpl_is_variable = tv := by
  simp only [prepare] at h
  cases hpa : parseArgs args with
  | error e => rw [hpa] at h; simp at h
  | ok trip =>
      obtain ⟨ct, ev, tpl⟩ := trip
      rw [hpa] at h
      dsimp only [] at h
      cases hs : s.isEmpty with
      | true => rw [hs] at h; simp at h
      | false =>
          rw [hs] at h
          simp only [Bool.false_eq_true, if_false] at h
          cases hct : cleanTpl tpl with
          | error e => rw [hct] at h; simp at h
          | ok p =>
              obtain ⟨tn, tv⟩ := p
              rw [hct] at h
              dsimp only [] at h
              cases hcv : convertCacheTime ct with
              | error e => rw [hcv] at h; simp at h
              | ok c =>
                  rw [hcv] at h
                  dsimp only [] at h
                  rw [Except.ok.injEq] at h
                  subst h
                  exact ⟨rfl, rfl, rfl, ct, ev, tpl, tn, tv, rfl, hct, hcv, rfl, rfl, rfl⟩

theorem prepare_templateSyntax_iff (tag s : String) (args : List String) :
    prepare (tag :: s :: args) = Except.error PyError.templateSyntax ↔
      parseArgs args = Except.error PyError.templateSyntax := by
  simp only [prepare]
  cases hpa : parseArgs args with
  | error e => dsimp only []; simp
  | ok trip =>
      obtain ⟨ct, ev, tpl⟩ := trip
      dsimp only []
      cases hs : s.isEmpty with
      | true => simp
      | false =>
          simp only [Bool.false_eq_true, if_false]
          cases hct : cleanTpl tpl with
          | error e =>
              dsimp only []
              constructor
              · intro hcontra
                simp only [Except.error.injEq] at hcontra
                subst hcontra
                exact absurd hct (cleanTpl_ne_templateSyntax tpl)
              · intro hcontra
                simp at hcontra
          | ok p =>
              obtain ⟨tn, tv⟩ := p
              dsimp only []
              cases hcv : convertCacheTime ct with
              | error e =>
                  dsimp only []
                  constructor
                  · intro hcontra
                    simp only [Except.error.injEq] at hcontra
                    subst hcontra
                    exact absurd hcv (convertCacheTime_ne_templateSyntax ct)
                  · intro hcontra
                    simp at hcontra
              | ok c => dsimp only []; simp

theorem parseArgs_templateSyntax_iff (args : List String) :
    parseArgs args = Except.error PyError.templateSyntax ↔
      (4 < args.length
       ∨ (args.length = 2 ∧ args.getD 0 "" ≠ "using" ∧ args.getD 1 "" ≠ "evaluated")) := by
  match args with
  | [] => simp [parseArgs]
  | [a0] =>
      simp only [parseArgs]
      split_ifs <;> simp
  | [a0, a1] =>
      simp only [parseArgs]
      split_ifs with h1 h2 <;> simp_all
  | [a0, a1, a2] =>
      simp only [parseArgs]
      split_ifs <;> simp
  | [a0, a1, a2, a3] => simp [parseArgs]
  | a0 :: a1 :: a2 :: a3 :: a4 :: rest =>
      have h5 : parseArgs (a0 :: a1 :: a2 :: a3 :: a4 :: rest) =
          Except.error PyError.templateSyntax := rfl
      simp only [h5, List.length_cons, true_iff]
      left
      omega

/-- C6 counterexample: the three-argument sequence 10, foo, tpl after the
slug is outside the documented grammar (the middle token is not the keyword
'using'), yet prepare accepts it without raising TemplateSyntaxError,
reading 10 as the timeout and tpl as the template name. -/
theorem C6_counterexample :
    prepare ["flatblock", "\"x\"", "10", "foo", "tpl"] =
      Except.ok { slug := "x", is_variable := false, cache_time := CacheTime.int 10,
                  tpl_name := some "tpl", tpl_is_variable := true,
                  evaluated := false } := by
  rfl

/-- C6 (amended): prepare raises TemplateSyntaxError exactly when more than
four arguments follow the slug, or when exactly two arguments follow the
slug of which the first is not 'using' and the second is not 'evaluated'.
The keyword tokens of the three- and four-argument forms are not validated,
so argument sequences outside the grammar at those arities are accepted
(and a non-numeric token in a timeout position raises ValueError from
int() instead of TemplateSyntaxError). -/
theorem C6_syntax_errors (tag slug : String) (args : List String) :
    prepare (tag :: slug :: args) = Except.error PyError.templateSyntax ↔
      (4 < args.length
       ∨ (args.length = 2 ∧ args.getD 0 "" ≠ "using" ∧ args.getD 1 "" ≠ "evaluated")) := by
  rw [prepare_templateSyntax_iff, parseArgs_templateSyntax_iff]

/-! Further helper lemmas about fetch. -/

theorem fetch_cases (node : FlatBlockNode) (env : Env) :
    (∃ fb, node.cache_time.neZero = true ∧ env.cache (node.cacheKey env) = some fb
      ∧ node.fetch env =
          { block := some fb, cacheGet := some (node.cacheKey env), dbGet := none,
            dbGetOrCreate := none, created := none, cacheSet := none })
    ∨ (∃ cg, (cg = none ∨ cg = some (node.cacheKey env))
        ∧ node.fetch env = node.fetchDb env cg) := by
  cases hnz : node.cache_time.neZero
  · exact Or.inr ⟨none, Or.inl rfl, fetch_eq_zero node env hnz⟩
  · cases hc : env.cache (node.cacheKey env) with
    | none =>
        exact Or.inr ⟨some (node.cacheKey env), Or.inr rfl, fetch_eq_miss node env hnz hc⟩
    | some fb => exact Or.inl ⟨fb, rfl, rfl, fetch_eq_hit node env fb hnz hc⟩

theorem render_cacheSet_of_dbFetch (node : FlatBlockNode) (env : Env) (fb : FlatBlock)
    (hdb : (node.render env).dbGet.isSome = true ∨ (node.render env).dbGetOrCreate.isSome = true)
    (hblock : (node.fetch env).block = some fb) :
    (node.render env).cacheSet = cacheSetCall node.cache_time (node.cacheKey env) fb := by
  rcases fetch_cases node env with ⟨fb2, hnz, hc, hf⟩ | ⟨cg, hcg, hf⟩
  · rw [render_dbGet, render_dbGetOrCreate, hf] at hdb
    simp at hdb
  · rw [render_cacheSet, hf, fetchDb_cacheSet]
    rw [hf] at hblock
    rw [hblock]
    rfl

/-- C1: in every render, the cache is consulted (a cache.get on the key
CACHE_PREFIX + resolved slug) iff the node's cache_time is not 0; a cache
hit prevents any datastore read; a cache miss or cache_time = 0 forces a
datastore read; and after a datastore fetch that yields a record, the
record is stored back into the cache exactly when cache_time is not 0. -/
theorem C1_cache_protocol (node : FlatBlockNode) (env : Env) :
    ((node.render env).cacheGet.isSome = node.cache_time.neZero)
    ∧ (node.cache_time.neZero = true →
        (node.render env).cacheGet = some (node.cacheKey env))
    ∧ (node.cache_time.neZero = true → (env.cache (node.cacheKey env)).isSome = true →
        (node.render env).dbGet = none ∧ (node.render env).dbGetOrCreate = none)
    ∧ ((node.cache_time.neZero = false ∨ env.cache (node.cacheKey env) = none) →
        ((node.render env).dbGet.isSome = true ∨ (node.render env).dbGetOrCreate.isSome = true))
    ∧ (∀ fb : FlatBlock,
        ((node.render env).dbGet.isSome = true ∨ (node.render env).dbGetOrCreate.isSome = true) →
        (node.fetch env).block = some fb →
        ((node.render env).cacheSet.isSome = node.cache_time.neZero
         ∧ (node.cache_time.neZero = true →
             ∃ t : Option Int, (node.render env).cacheSet = some (node.cacheKey env, fb, t)))) := by
  refine ⟨?_, ?_, ?_, ?_, ?_⟩
  · rw [render_cacheGet]
    cases hnz : node.cache_time.neZero
    · rw [fetch_eq_zero node env hnz, fetchDb_cacheGet]; rfl
    · cases hc : env.cache (node.cacheKey env) with
      | none => rw [fetch_eq_miss node env hnz hc, fetchDb_cacheGet]; rfl
      | some fb => rw [fetch_eq_hit node env fb hnz hc]; rfl
  · intro hnz
    rw [render_cacheGet]
    cases hc : env.cache (node.cacheKey env) with
    | none => rw [fetch_eq_miss node env hnz hc, fetchDb_cacheGet]
    | some fb => rw [fetch_eq_hit node env fb hnz hc]
  · intro hnz hcs
    cases hc : env.cache (node.cacheKey env) with
    | none => rw [hc] at hcs; simp at hcs
    | some fb =>
        rw [render_dbGet, render_dbGetOrCreate, fetch_eq_hit node env fb hnz hc]
        exact ⟨rfl, rfl⟩
  · intro hor
    have hfdb : ∃ cg, node.fetch env = node.fetchDb env cg := by
      cases hnz : node.cache_time.neZero
      · exact ⟨none, fetch_eq_zero node env hnz⟩
      · rcases hor with h | hc
        · rw [hnz] at h; simp at h
        · exact ⟨some (node.cacheKey env), fetch_eq_miss node env hnz hc⟩
    obtain ⟨cg, hf⟩ := hfdb
    rw [render_dbGet, render_dbGetOrCreate, hf, fetchDb_dbGet, fetchDb_dbGetOrCreate]
    cases hp : (node.is_variable || !env.autocreate) <;> simp [hp]
  · intro fb hdb hblock
    rw [render_cacheSet_of_dbFetch node env fb hdb hblock]
    constructor
    · unfold cacheSetCall
      cases hnz : node.cache_time.neZero
      · simp [hnz]
      · simp only [hnz, if_true]
        split <;> simp
    · intro hnz
      unfold cacheSetCall
      simp only [hnz, if_true]
      split
      · exact ⟨none, rfl⟩
      · exact ⟨some node.cache_time.toInt, rfl⟩

/-- C2: whenever the datastore is consulted, the get_or_create path is
taken iff the slug is a literal (is_variable false) and the
AUTOCREATE_STATIC_BLOCKS setting is enabled — otherwise a plain get is
issued for the resolved slug; a record is created exactly when the
get_or_create path meets a missing record, and the created record's content
field equals the slug; on the plain-get path a missing record means
DoesNotExist (no record is obtained). -/
theorem C2_autocreate (node : FlatBlockNode) (env : Env) :
    ((node.render env).dbGetOrCreate.isSome = true ↔
       (((node.render env).dbGet.isSome = true ∨ (node.render env).dbGetOrCreate.isSome = true)
        ∧ node.is_variable = false ∧ env.autocreate = true))
    ∧ ((node.render env).created =
        (if (node.render env).dbGetOrCreate.isSome && (env.db (node.realSlug env)).isNone then
          some { slug := node.realSlug env, header := "", content := node.realSlug env }
        else none))
    ∧ ((node.render env).dbGet.isSome = true → env.db (node.realSlug env) = none →
        (node.fetch env).block = none)
    ∧ (((node.render env).dbGet.isSome = true ∨ (node.render env).dbGetOrCreate.isSome = true) →
       (node.is_variable = true ∨ env.autocreate = false) →
       (node.render env).dbGet = some (node.realSlug env)) := by
  rcases fetch_cases node env with ⟨fb, hnz, hc, hf⟩ | ⟨cg, hcg, hf⟩
  · simp only [render_dbGetOrCreate, render_dbGet, render_created, hf]
    simp
  · simp only [render_dbGetOrCreate, render_dbGet, render_created, hf,
               fetchDb_dbGet, fetchDb_dbGetOrCreate, fetchDb_created, fetchDb_block]
    cases hp : (node.is_variable || !env.autocreate)
    · have hva : node.is_variable = false ∧ env.autocreate = true := by
        simpa using hp
      obtain ⟨hv, ha⟩ := hva
      cases hdb : env.db (node.realSlug env) <;> simp [hv, ha, hdb]
    · have hva : node.is_variable = true ∨ env.autocreate = false := by
        rcases Bool.or_eq_true_iff.mp hp with h | h
        · exact Or.inl h
        · exact Or.inr (by simpa using h)
      refine ⟨?_, ?_, ?_, ?_⟩
      · simp
        rcases hva with h | h <;> simp [h]
      · simp
      · intro _ hdb
        simp [hdb]
      · intro _ _
        simp

/-- C4: with the evaluated flag set, the fetched record's content and
header are replaced by their template-engine rendering in the current
context while the pre-evaluation values are kept as raw_content and
raw_header; with the flag unset the fetched record is passed through
unchanged. -/
theorem C4_evaluated (node : FlatBlockNode) (env : Env) :
    (node.evaluated = true → ∀ fb : FlatBlock, (node.fetch env).block = some fb →
       (node.render env).blockOut = some
         { slug := fb.slug, header := env.evalTpl fb.header,
           content := env.evalTpl fb.content,
           raw_content := some fb.content, raw_header := some fb.header })
    ∧ (node.evaluated = false → (node.render env).blockOut = (node.fetch env).block) := by
  constructor
  · intro hev fb hb
    rw [render_blockOut, hb]
    simp [hev, evaluateBlock]
  · intro hev
    rw [render_blockOut]
    cases (node.fetch env).block <;> simp [hev]

/-- C5: a successful render with with_template = True returns the output
template — the parsed using-name, or 'flatblocks/flatblock.html' when none
was given — rendered over the enclosing context extended with the resolved
record bound to 'flatblock' (the renderTpl collaborator); with
with_template = False (the plain_flatblock tag, whose wrapper passes no
template name) it returns exactly the record's content string. -/
theorem C5_output (node : FlatBlockNode) (env : Env) (tokens : List String) :
    (∀ fb : FlatBlock, (node.render env).blockOut = some fb →
       ((node.with_template = true →
           (node.render env).output = env.renderTpl (node.realTemplate env) fb)
        ∧ (node.with_template = false → (node.render env).output = fb.content)))
    ∧ (∀ s v ct tv ev, (FlatBlockNode.make s v ct true none tv ev).realTemplate env
         = "flatblocks/flatblock.html")
    ∧ (∀ s v ct ev t, (FlatBlockNode.make s v ct true (some t) false ev).realTemplate env = t)
    ∧ (∀ nd : FlatBlockNode, plainWrapperCall tokens = Except.ok nd →
         nd.with_template = false ∧ nd.template_name = TplName.lit "flatblocks/flatblock.html")
    ∧ (∀ nd : FlatBlockNode, basicWrapperCall tokens = Except.ok nd →
         nd.with_template = true) := by
  refine ⟨?_, ?_, ?_, ?_, ?_⟩
  · intro fb hb
    constructor
    · intro hw
      rw [render_output, hb]
      dsimp only []
      rw [hw]
      simp
    · intro hw
      rw [render_output, hb]
      dsimp only []
      rw [hw]
      simp
  · intro s v ct tv ev
    simp [FlatBlockNode.make, FlatBlockNode.realTemplate]
  · intro s v ct ev t
    simp [FlatBlockNode.make, FlatBlockNode.realTemplate]
  · intro nd h
    unfold plainWrapperCall at h
    cases hpr : prepare tokens with
    | error e => rw [hpr] at h; simp at h
    | ok p =>
        rw [hpr] at h
        dsimp only [] at h
        rw [Except.ok.injEq] at h
        subst h
        exact ⟨rfl, rfl⟩
  · intro nd h
    unfold basicWrapperCall at h
    cases hpr : prepare tokens with
    | error e => rw [hpr] at h; simp at h
    | ok p =>
        rw [hpr] at h
        dsimp only [] at h
        rw [Except.ok.injEq] at h
        subst h
        rfl

/-- C7: with exactly one argument after the slug, the literal token
'evaluated' sets the evaluated flag and leaves cache_time at 0; any other
token is taken as the cache timeout with evaluated left false; with no
argument after the slug, cache_time is 0 and evaluated is false. -/
theorem C7_single_argument (tag slug a : String) :
    (∀ r : ParsedTag, prepare [tag, slug] = Except.ok r →
       r.cache_time = CacheTime.int 0 ∧ r.evaluated = false)
    ∧ (∀ r : ParsedTag, prepare [tag, slug, "evaluated"] = Except.ok r →
       r.evaluated = true ∧ r.cache_time = CacheTime.int 0)
    ∧ (a ≠ "evaluated" → ∀ r : ParsedTag, prepare [tag, slug, a] = Except.ok r →
       r.evaluated = false
       ∧ ((a = "None" ∧ r.cache_time = CacheTime.noneStr)
          ∨ ∃ n : Int, pyInt a = some n ∧ r.cache_time = CacheTime.int n)) := by
  refine ⟨?_, ?_, ?_⟩
  · intro r h
    obtain ⟨-, -, -, ct, ev, tpl, tn, tv, hpa, -, hcv, hev, -, -⟩ := prepare_ok_fields h
    have h0 : Except.ok (α := Option String × Bool × Option String)
        (none, false, none) = Except.ok (ct, ev, tpl) := hpa
    simp only [Except.ok.injEq, Prod.mk.injEq] at h0
    obtain ⟨hc0, he0, -⟩ := h0
    rw [← hc0] at hcv
    simp only [convertCacheTime, Except.ok.injEq] at hcv
    exact ⟨hcv.symm, hev.trans he0.symm⟩
  · intro r h
    obtain ⟨-, -, -, ct, ev, tpl, tn, tv, hpa, -, hcv, hev, -, -⟩ := prepare_ok_fields h
    have h0 : parseArgs ["evaluated"] = Except.ok (none, true, none) := by
      simp [parseArgs]
    rw [h0] at hpa
    simp only [Except.ok.injEq, Prod.mk.injEq] at hpa
    obtain ⟨hc0, he0, -⟩ := hpa
    rw [← hc0] at hcv
    simp only [convertCacheTime, Except.ok.injEq] at hcv
    exact ⟨hev.trans he0.symm, hcv.symm⟩
  · intro ha r h
    obtain ⟨-, -, -, ct, ev, tpl, tn, tv, hpa, -, hcv, hev, -, -⟩ := prepare_ok_fields h
    have h0 : parseArgs [a] = Except.ok (some a, false, none) := by
      simp [parseArgs, ha]
    rw [h0] at hpa
    simp only [Except.ok.injEq, Prod.mk.injEq] at hpa
    obtain ⟨hc0, he0, -⟩ := hpa
    rw [← hc0] at hcv
    refine ⟨hev.trans he0.symm, ?_⟩
    by_cases hn : a = "None"
    · left
      refine ⟨hn, ?_⟩
      rw [hn] at hcv
      have hconv : convertCacheTime (some "None") = Except.ok CacheTime.noneStr := rfl
      rw [hconv] at hcv
      exact (Except.ok.inj hcv).symm
    · right
      simp only [convertCacheTime, hn, if_false] at hcv
      cases hp : pyInt a with
      | none => rw [hp] at hcv; simp at hcv
      | some n =>
          rw [hp] at hcv
          simp only [Except.ok.injEq] at hcv
          exact ⟨n, rfl, hcv.symm⟩

/-- C8: when the record does not exist and is not auto-created, the
DoesNotExist raised by the plain objects.get is caught by render: the
result is the empty string, no record reaches the output step, and nothing
is written to the cache. -/
theorem C8_missing_record (node : FlatBlockNode) (env : Env) :
    ((node.fetch env).block = none →
       (node.render env).output = "" ∧ (node.render env).blockOut = none
       ∧ (node.render env).cacheSet = none)
    ∧ ((node.cache_time.neZero = false ∨ env.cache (node.cacheKey env) = none) →
       (node.is_variable = true ∨ env.autocreate = false) →
       env.db (node.realSlug env) = none →
       (node.fetch env).block = none) := by
  constructor
  · intro hb
    refine ⟨?_, ?_, ?_⟩
    · rw [render_output, render_blockOut, hb]
      rfl
    · rw [render_blockOut, hb]
      rfl
    · rcases fetch_cases node env with ⟨fb, hnz, hc, hf⟩ | ⟨cg, hcg, hf⟩
      · rw [hf] at hb; simp at hb
      · rw [render_cacheSet, hf, fetchDb_cacheSet]
        rw [hf] at hb
        rw [hb]
        rfl
  · intro h1 h2 h3
    have hp : (node.is_variable || !env.autocreate) = true := by
      rcases h2 with h | h <;> simp [h]
    have hfdb : ∃ cg, node.fetch env = node.fetchDb env cg := by
      cases hnz : node.cache_time.neZero
      · exact ⟨none, fetch_eq_zero node env hnz⟩
      · rcases h1 with h | hc
        · rw [hnz] at h; simp at h
        · exact ⟨some (node.cacheKey env), fetch_eq_miss node env hnz hc⟩
    obtain ⟨cg, hf⟩ := hfdb
    rw [hf, fetchDb_block, if_pos hp, h3]

/-- C9: a parsed timeout token 'None' is not converted to an integer by
prepare (the slot keeps the string 'None'); at render time such a node (or
one holding the value None) still consults the cache, and after a datastore
fetch the record is cached by cache.set without a timeout argument (the
backend's default timeout); for any other nonzero timeout, cache.set gets
the timeout converted to an int. -/
theorem C9_none_timeout (tag slug : String) (node : FlatBlockNode) (env : Env) :
    (∀ r : ParsedTag, prepare [tag, slug, "None"] = Except.ok r →
       r.cache_time = CacheTime.noneStr)
    ∧ ((node.cache_time = CacheTime.noneStr ∨ node.cache_time = CacheTime.pyNone) →
       (node.render env).cacheGet = some (node.cacheKey env))
    ∧ ((node.cache_time = CacheTime.noneStr ∨ node.cache_time = CacheTime.pyNone) →
       ∀ fb : FlatBlock,
         ((node.render env).dbGet.isSome = true ∨ (node.render env).dbGetOrCreate.isSome = true) →
         (node.fetch env).block = some fb →
         (node.render env).cacheSet = some (node.cacheKey env, fb, none))
    ∧ (∀ n : Int, node.cache_time = CacheTime.int n → n ≠ 0 →
       ∀ fb : FlatBlock,
         ((node.render env).dbGet.isSome = true ∨ (node.render env).dbGetOrCreate.isSome = true) →
         (node.fetch env).block = some fb →
         (node.render env).cacheSet = some (node.cacheKey env, fb, some n)) := by
  refine ⟨?_, ?_, ?_, ?_⟩
  · intro r h
    obtain ⟨-, -, -, ct, ev, tpl, tn, tv, hpa, -, hcv, -, -, -⟩ := prepare_ok_fields h
    have h0 : parseArgs ["None"] = Except.ok (some "None", false, none) := by
      simp [parseArgs]
    rw [h0] at hpa
    simp only [Except.ok.injEq, Prod.mk.injEq] at hpa
    obtain ⟨hc0, -, -⟩ := hpa
    rw [← hc0] at hcv
    have hconv : convertCacheTime (some "None") = Except.ok CacheTime.noneStr := rfl
    rw [hconv] at hcv
    exact (Except.ok.inj hcv).symm
  · intro h
    have hnz : node.cache_time.neZero = true := by
      rcases h with h | h <;> rw [h] <;> rfl
    rw [render_cacheGet]
    cases hc : env.cache (node.cacheKey env) with
    | none => rw [fetch_eq_miss node env hnz hc, fetchDb_cacheGet]
    | some fb => rw [fetch_eq_hit node env fb hnz hc]
  · intro h fb hdb hblock
    rw [render_cacheSet_of_dbFetch node env fb hdb hblock]
    rcases h with h | h <;> rw [h] <;> rfl
  · intro n hn hn0 fb hdb hblock
    rw [render_cacheSet_of_dbFetch node env fb hdb hblock]
    rw [hn]
    unfold cacheSetCall
    have : (CacheTime.int n).neZero = true := by
      simp [CacheTime.neZero, hn0]
    rw [this]
    rfl

/-- C10: prepare is not total over token streams — an invocation holding
only the tag name raises IndexError from tokens[1] (the
between-1-and-5-arguments TemplateSyntaxError branch is unreachable for
zero arguments), and a timeout token that is neither numeric nor 'None'
makes the int() conversion raise ValueError. -/
theorem C10_partiality (tag slug t : String) :
    prepare [tag] = Except.error PyError.indexError
    ∧ (slug.isEmpty = false → t ≠ "evaluated" → t ≠ "None" → pyInt t = none →
       prepare [tag, slug, t] = Except.error PyError.valueError) := by
  refine ⟨rfl, ?_⟩
  intro hs hte htn hpi
  simp only [prepare]
  have hpa : parseArgs [t] = Except.ok (some t, false, none) := by
    simp [parseArgs, hte]
  rw [hpa]
  dsimp only []
  rw [hs]
  simp only [Bool.false_eq_true, if_false]
  have hct : cleanTpl none = Except.ok (none, false) := rfl
  rw [hct]
  dsimp only []
  have hcv : convertCacheTime (some t) = Except.error PyError.valueError := by
    simp [convertCacheTime, htn, hpi]
  rw [hcv]

/-- C3: a slug token whose first and last characters are the same quote
character parses as a literal with that one leading and one trailing quote
removed; any other token parses as a variable name; and at render time the
lookup slug of a variable node is the variable's value resolved from the
current context (every slug appearing in the render's trace is the resolved
slug). -/
theorem C3_slug_resolution (tag s : String) (args : List String) (env : Env) :
    (∀ r : ParsedTag, prepare (tag :: s :: args) = Except.ok r →
       ((isQuoted s = true → r.is_variable = false ∧ r.slug = (s.drop 1).dropRight 1)
        ∧ (isQuoted s = false → r.is_variable = true ∧ r.slug = s)))
    ∧ (∀ node : FlatBlockNode, node.is_variable = true →
        node.realSlug env = env.resolveVar node.slug)
    ∧ (∀ node : FlatBlockNode,
        ((node.render env).dbGet = none ∨ (node.render env).dbGet = some (node.realSlug env))
        ∧ ((node.render env).dbGetOrCreate = none
           ∨ (node.render env).dbGetOrCreate = some (node.realSlug env))
        ∧ ((node.render env).cacheGet = none
           ∨ (node.render env).cacheGet = some (env.cachePref ++ node.realSlug env))) := by
  refine ⟨?_, ?_, ?_⟩
  · intro r h
    obtain ⟨-, hslug, hvar, -⟩ := prepare_ok_fields h
    constructor
    · intro hq
      rw [hq] at hslug hvar
      simp at hslug hvar
      exact ⟨hvar, hslug⟩
    · intro hq
      rw [hq] at hslug hvar
      simp at hslug hvar
      exact ⟨hvar, hslug⟩
  · intro node h
    unfold FlatBlockNode.realSlug
    rw [h]
    simp
  · intro node
    rcases fetch_cases node env with ⟨fb, hnz, hc, hf⟩ | ⟨cg, hcg, hf⟩
    · simp [render_dbGet, render_dbGetOrCreate, render_cacheGet, hf,
            FlatBlockNode.cacheKey]
    · simp only [render_dbGet, render_dbGetOrCreate, render_cacheGet, hf,
                 fetchDb_dbGet, fetchDb_dbGetOrCreate, fetchDb_cacheGet]
      refine ⟨?_, ?_, ?_⟩
      · split <;> simp
      · split <;> simp
      · rcases hcg with h | h <;> rw [h]
        · exact Or.inl rfl
        · exact Or.inr rfl

/-! Concrete end-to-end evaluations of the embedding, checking the parser
and render pipeline on sample inputs against the behaviour of the Python
module. -/

/-- A sample environment with one record under the slug 'help', an empty
cache, and AUTOCREATE_STATIC_BLOCKS enabled. -/
def envDemo : Env :=
  { cachePref := "flatblock_", autocreate := true,
    cache := fun _ => none,
    db := fun s =>
      if s = "help" then some { slug := "help", header := "H", content := "C" }
      else none,
    resolveVar := fun v => String.append v "!",
    evalTpl := fun s => String.append s "?",
    renderTpl := fun t fb => String.append (String.append t ":") fb.content }

/-- Concrete check: the tag {% flatblock 'help' 300 %} parses to a literal
slug with a 300-second timeout, and its render fetches the record from the
datastore, caches it under CACHE_PREFIX + slug with timeout 300, and
renders the default output template over it. -/
theorem demo_cached_render :
    basicWrapperCall ["flatblock", "'help'", "300"] =
      Except.ok (FlatBlockNode.make "help" false (CacheTime.int 300) true none false false)
    ∧ ((FlatBlockNode.make "help" false (CacheTime.int 300) true none false false).render
        envDemo).cacheSet =
      some ("flatblock_help",
        { slug := "help", header := "H", content := "C",
          raw_content := none, raw_header := none }, some 300)
    ∧ ((FlatBlockNode.make "help" false (CacheTime.int 300) true none false false).render
        envDemo).output = "flatblocks/flatblock.html:C" := by
  refine ⟨rfl, rfl, rfl⟩

/-- Concrete check: a literal slug missing from the datastore is
auto-created (content = slug) when AUTOCREATE_STATIC_BLOCKS is on, and the
plain_flatblock form returns its content string directly. -/
theorem demo_autocreate_render :
    ((FlatBlockNode.make "missing" false (CacheTime.int 0) false none false false).render
        envDemo).created =
      some { slug := "missing", header := "", content := "missing" }
    ∧ ((FlatBlockNode.make "missing" false (CacheTime.int 0) false none false false).render
        envDemo).output = "missing" := by
  refine ⟨rfl, rfl⟩

/-- Concrete check: a variable slug resolves through the context before the
lookup, bypasses auto-creation, and on a missing record the caught
DoesNotExist yields the empty string with nothing written to the cache. -/
theorem demo_variable_miss_render :
    ((FlatBlockNode.make "nope" true (CacheTime.int 5) true none false false).render
        envDemo).dbGet = some "nope!"
    ∧ ((FlatBlockNode.make "nope" true (CacheTime.int 5) true none false false).render
        envDemo).output = ""
    ∧ ((FlatBlockNode.make "nope" true (CacheTime.int 5) true none false false).render
        envDemo).cacheSet = none := by
  refine ⟨rfl, rfl, rfl⟩

/-- Concrete check: {% flatblock 'help' None evaluated %} keeps the token
'None' unconverted; the render evaluates content/header through the
template engine (keeping raw copies) and calls cache.set without a timeout
argument, on the unevaluated record. -/
theorem demo_none_evaluated_render :
    basicWrapperCall ["flatblock", "'help'", "None", "evaluated"] =
      Except.ok (FlatBlockNode.make "help" false CacheTime.noneStr true none false true)
    ∧ ((FlatBlockNode.make "help" false CacheTime.noneStr true none false true).render
        envDemo).blockOut =
      some { slug := "help", header := "H?", content := "C?",
             raw_content := some "C", raw_header := some "H" }
    ∧ ((FlatBlockNode.make "help" false CacheTime.noneStr true none false true).render
        envDemo).cacheSet =
      some ("flatblock_help",
        { slug := "help", header := "H", content := "C",
          raw_content := none, raw_header := none }, none) := by
  refine ⟨rfl, rfl, rfl⟩

end Flatblocks
